import Mathlib

/-!
Verification of the adschat-server core: the message-creation route
(`src/routes/channels/channelMessageCreate.ts`) and the account-security
service (`src/services/User/UserManagement.ts`), shallowly embedded as
pure Lean functions over explicit request/database models.
-/

set_option autoImplicit false

namespace AdsChat

/-- The JSON error body produced by `generateError(message, field?)` in
`common/errorHandler.ts`. -/
structure ApiError where
  message : String
  field : Option String := none
  deriving Repr, DecidableEq

/-- `generateError(message)` from `common/errorHandler.ts`: an error body with
no field attached. -/
def generateError (message : String) : ApiError :=
  { message := message, field := none }

/-! ## Channel model (`types/Channel.ts`, available only through its callers) -/

/-- Modelled from the spec: channel type is "one of a fixed enum including
direct-message 'inbox' and text channel variants" (`types/Channel.ts` is not in
the sources; only `TextChannelTypes.includes(type)` is observable). -/
inductive ChannelType where
  | DM_TEXT
  | SERVER_TEXT
  | CATEGORY
  deriving Repr, DecidableEq

/-- Modelled from the spec: the set of text-capable channel types used by
`TextChannelTypes.includes(req.channelCache.type)`; it contains the
direct-message and server text variants but not the category variant. -/
def TextChannelTypes : List ChannelType :=
  [ChannelType.DM_TEXT, ChannelType.SERVER_TEXT]

/-- The `inbox` metadata on a cached channel: `{canMessage: bool}` governing
whether the direct-message recipient may be messaged. -/
structure InboxMeta where
  canMessage : Bool
  deriving Repr, DecidableEq

/-- The request-scoped channel cache (`req.channelCache`): id, type, optional
inbox metadata for DM channels, optional owning server id. -/
structure ChannelCache where
  id : String
  chType : ChannelType
  inbox : Option InboxMeta
  serverId : Option String
  deriving Repr, DecidableEq

/-! ## Request body and validation -/

/-- The JSON body of `POST /channels/:channelId/messages`:
optional `content` and optional `socketId`. -/
structure MessageBody where
  content : Option String
  socketId : Option String
  deriving Repr, DecidableEq

/-- The `body('content').optional(true).isString().isLength({min:1,max:2000})`
validator chain: an absent content passes, a present content must have length
between 1 and 2000. -/
def contentValid : Option String → Bool
  | none => true
  | some s => 1 ≤ s.length && s.length ≤ 2000

/-- The `body('socketId').optional(true).isString().isLength({min:1,max:255})`
validator chain. -/
def socketIdValid : Option String → Bool
  | none => true
  | some s => 1 ≤ s.length && s.length ≤ 255

/-- `customExpressValidatorResult(req)`: the first validation failure of the
declared validator chains, in declaration order (content, then socketId), or
none when validation passes. -/
def validateBody (b : MessageBody) : Option ApiError :=
  if !contentValid b.content then
    some { message := "Content length must be between 1 and 2000 characters.",
           field := some "content" }
  else if !socketIdValid b.socketId then
    some { message := "SocketId length must be between 1 and 255 characters.",
           field := some "socketId" }
  else
    none

/-! ## Attachment ingestion (`common/nerimityCDN.ts`, external collaborator) -/

/-- A successful `uploadImage` result: storage path plus pixel dimensions. -/
structure UploadedImage where
  path : String
  width : Nat
  height : Nat
  deriving Repr, DecidableEq

/-- The error side of `uploadImage`: either a plain string reason
(`typeof err === 'string'`) or a structured error carrying a `type` tag. -/
inductive UploadError where
  | str (s : String)
  | typed (errType : String)
  deriving Repr, DecidableEq

/-- The file part attached to the request by `connectBusboyWrapper`
(`req.fileInfo`): present exactly when a file was uploaded. -/
structure FileInfo where
  filename : String
  deriving Repr, DecidableEq

/-! ## The route handler -/

/-- `MessageType` from `types/Message.ts`: the route always sends `CONTENT`. -/
inductive MessageType where
  | CONTENT
  deriving Repr, DecidableEq

/-- The attachment record the route builds from a successful upload. -/
structure Attachment where
  width : Option Nat
  height : Option Nat
  path : String
  deriving Repr, DecidableEq

/-- The argument object the route passes to `createMessage` (the message
service itself is an external collaborator; the route's contract is the
constructed input). -/
structure CreateMessageInput where
  channelId : String
  content : Option String
  userId : String
  serverId : Option String
  socketId : Option String
  msgType : MessageType
  attachment : Option Attachment
  deriving Repr, DecidableEq

/-- The observable outcome of the route handler: an error response with an
HTTP status and JSON error body, or a call to `createMessage` with the
constructed input (whose result is returned as JSON). -/
inductive RouteResponse where
  | apiError (status : Nat) (e : ApiError)
  | message (m : CreateMessageInput)
  deriving Repr, DecidableEq

/-- The request-scoped state the route reads: parsed body, channel cache,
optional file info, and the authenticated user's id. -/
structure RouteRequest where
  body : MessageBody
  channel : ChannelCache
  fileInfo : Option FileInfo
  userId : String
  deriving Repr, DecidableEq

/-- `!body.content?.trim()`: true when content is absent or trims to the
empty string. -/
def contentMissing : Option String → Bool
  | none => true
  | some s => s.trim == ""

/-- The 403 error-message mapping of the route's upload-failure branch:
a plain string error is returned verbatim; a typed `INVALID_IMAGE` error maps
to the images-only message; any other typed error maps to the unknown-error
message carrying the type tag. -/
def uploadErrorMessage : UploadError → String
  | UploadError.str s => s
  | UploadError.typed t =>
    if t = "INVALID_IMAGE" then "You can only upload images for now."
    else "An unknown error has occurred (" ++ t ++ ")"

/-- The condition `req.channelCache.inbox && !req.channelCache.inbox.canMessage`
of line 66: the channel is a direct-message channel whose recipient cannot be
messaged. -/
def inboxBlocked (c : ChannelCache) : Bool :=
  match c.inbox with
  | some m => !m.canMessage
  | none => false

/-- The `route` handler of `channelMessageCreate.ts`, lines 57-129.
`upload` is the outcome the external `uploadImage` collaborator would produce
for this request's file (consulted only when a file is present). -/
def route (req : RouteRequest) (upload : Except UploadError UploadedImage) :
    RouteResponse :=
  match validateBody req.body with
  | some e => RouteResponse.apiError 400 e
  | none =>
    if inboxBlocked req.channel then
      RouteResponse.apiError 400 (generateError "You cannot message this user.")
    else routeAfterInbox req upload
where
  routeAfterInbox (req : RouteRequest)
      (upload : Except UploadError UploadedImage) : RouteResponse :=
    if !(TextChannelTypes.contains req.channel.chType) then
      RouteResponse.apiError 400
        (generateError "You cannot send messages in this channel.")
    else if contentMissing req.body.content && req.fileInfo.isNone then
      RouteResponse.apiError 400
        (generateError "content or attachment is required.")
    else
      match req.fileInfo with
      | some _ =>
        match upload with
        | Except.error e =>
          RouteResponse.apiError 403 (generateError (uploadErrorMessage e))
        | Except.ok img =>
          RouteResponse.message
            { channelId := req.channel.id
              content := req.body.content
              userId := req.userId
              serverId := req.channel.serverId
              socketId := req.body.socketId
              msgType := MessageType.CONTENT
              attachment := some
                { width := some img.width
                  height := some img.height
                  path := img.path } }
      | none =>
        RouteResponse.message
          { channelId := req.channel.id
            content := req.body.content
            userId := req.userId
            serverId := req.channel.serverId
            socketId := req.body.socketId
            msgType := MessageType.CONTENT
            attachment := none }

/-! ## Permission middleware (`middleware/channelPermissions.ts` and
`middleware/memberHasRolePermission.ts`, not in the sources) -/

/-- Modelled from the spec: the `channelPermissions` middleware
(`middleware/channelPermissions.ts` is not in the sources). It grants when
`(channelBits & requiredBit) != 0`; "for direct-message ('inbox') channels,
permission is instead governed solely by the recipient's canMessage flag —
bypasses the bitwise checks entirely", so inbox channels pass through. The
failure message is the one wired in `channelMessageCreate.ts` line 27. -/
def channelPermissionsMiddleware (channel : ChannelCache)
    (channelBits requiredBit : Nat) : Option ApiError :=
  if channel.inbox.isSome then none
  else if channelBits &&& requiredBit ≠ 0 then none
  else some (generateError "You are not allowed to send messages in this channel.")

/-- Modelled from the spec: the `memberHasRolePermission` middleware
(`middleware/memberHasRolePermission.ts` is not in the sources). Effective
role bits are the bitwise OR of the member's role permission integers
(`roleBits` here); it grants when the required bit is set or the member is
the server owner, and inbox channels bypass the bitwise checks entirely. -/
def memberHasRolePermissionMiddleware (channel : ChannelCache)
    (isOwner : Bool) (roleBits requiredBit : Nat) : Option ApiError :=
  if channel.inbox.isSome then none
  else if isOwner || decide ((roleBits &&& requiredBit) ≠ 0) then none
  else some (generateError "You are missing the required role permission.")

/-- The middleware chain of `POST /channels/:channelId/messages` followed by
the route handler: channel-permission check, then role-permission check, then
the handler. Per the spec (§4.3) permission failures surface as 400. -/
def messageCreatePipeline (req : RouteRequest) (channelBits roleBits : Nat)
    (isOwner : Bool) (upload : Except UploadError UploadedImage) :
    RouteResponse :=
  match channelPermissionsMiddleware req.channel channelBits 1 with
  | some e => RouteResponse.apiError 400 e
  | none =>
    match memberHasRolePermissionMiddleware req.channel isOwner roleBits 1 with
    | some e => RouteResponse.apiError 400 e
    | none => route req upload

/-! ## Account-security service (`services/User/UserManagement.ts`) -/

/-- A row of the `user` table, restricted to the fields this core touches. -/
structure User where
  id : String
  username : String
  avatar : Option String
  banner : Option String
  badges : Nat
  customStatus : Option String
  deriving Repr, DecidableEq

/-- A row of the `account` table, restricted to the fields this core touches.
Timestamps are modelled as milliseconds since the epoch. -/
structure Account where
  userId : String
  email : String
  password : String
  passwordVersion : Nat
  emailConfirmed : Bool
  emailConfirmCode : Option String
  resetPasswordCode : Option String
  resetPasswordCodeExpiresAt : Option Nat
  deriving Repr, DecidableEq

/-- A row of the `follower` table: who follows whom. -/
structure Follower where
  id : String
  followedById : String
  followedToId : String
  deriving Repr, DecidableEq

/-- A generic dependent row owned by a user: profile, per-channel read-state,
device, connection, notice, server membership or application registration. -/
structure URow where
  id : String
  userId : String
  deriving Repr, DecidableEq

/-- The slice of the relational store the account-security service touches. -/
structure Db where
  accounts : List Account
  users : List User
  followers : List Follower
  userProfiles : List URow
  serverChannelLastSeens : List URow
  userDevices : List URow
  userConnections : List URow
  chatNotices : List URow
  userNotices : List URow
  serverMembers : List URow
  applications : List URow
  deriving Repr, DecidableEq

/-- The external side effects the service triggers, in program order:
read-cache invalidation (`removeUserCacheByUserIds`), mail dispatch, and the
realtime broadcaster's auth-error emit and forced disconnect. -/
inductive Effect where
  | removeUserCache (userIds : List String)
  | mailConfirmCode (code : String) (email : String)
  | mailResetPassword (url : String) (email : String)
  | emitAuthError (userId : String) (excludeSocketId : Option String)
  | disconnect (userId : String) (excludeSocketId : Option String)
  deriving Repr, DecidableEq

/-- A service call's observable outcome: the `[result, error]` pair (exactly
one side populated, modelled as `Except`), the database after the call, and
the external effects in the order they were triggered. -/
structure Outcome (α : Type) where
  result : Except ApiError α
  db : Db
  effects : List Effect
  deriving Repr

/-- `prisma.account.findFirst({where: {userId}})` /
`getAccountByUserId(userId)`: the first account with the given user id. -/
def findAccount (db : Db) (userId : String) : Option Account :=
  db.accounts.find? (fun a => a.userId == userId)

/-- `prisma.<table>.update({where})` on a unique key: replace the first row
matched by `key` with its image under `f`, returning the new list and the
updated row (none when no row matched, in which case Prisma would throw). -/
def updateFirstBy {α : Type} (key : α → Bool) (f : α → α) :
    List α → List α × Option α
  | [] => ([], none)
  | a :: rest =>
    if key a then (f a :: rest, some (f a))
    else
      let r := updateFirstBy key f rest
      (a :: r.1, r.2)

/-- `disconnectSockets(userId, excludeSocketId?)`, lines 204-211: emit
`AUTHENTICATE_ERROR` to the user's sockets (minus the excluded one) and
force-disconnect them. -/
def disconnectSocketsEffects (userId : String)
    (excludeSocketId : Option String) : List Effect :=
  [Effect.emitAuthError userId excludeSocketId,
   Effect.disconnect userId excludeSocketId]

/-- `sendEmailConfirmCode(userId)`, lines 12-32. `newCode` stands for the
value `generateEmailConfirmCode()` returns inside
`updateAccountConfirmCode`; `devMode` is `env.DEV_MODE`. -/
def sendEmailConfirmCode (db : Db) (devMode : Bool) (newCode : String)
    (userId : String) : Outcome String :=
  match findAccount db userId with
  | none => ⟨Except.error (generateError "Invalid userId."), db, []⟩
  | some account =>
    if account.emailConfirmed then
      ⟨Except.error (generateError "Email already verified."), db, []⟩
    else
      let updated := updateFirstBy (fun a => a.userId == userId)
        (fun a => { a with emailConfirmCode := some newCode }) db.accounts
      let db2 := { db with accounts := updated.1 }
      if devMode then
        ⟨Except.ok ("DEV MODE: Email verify code: " ++ newCode), db2, []⟩
      else
        ⟨Except.ok "Email confirmation code sent.", db2,
         [Effect.mailConfirmCode newCode account.email]⟩

/-- `verifyEmailConfirmCode(userId, code)`, lines 77-103: checks account
existence, not-already-confirmed, an active code, and code equality; on
success sets `emailConfirmed`, clears the code
(`updateAccountEmailConfirmed`) and invalidates the read cache. -/
def verifyEmailConfirmCode (db : Db) (userId code : String) : Outcome Bool :=
  match findAccount db userId with
  | none => ⟨Except.error (generateError "Invalid userId."), db, []⟩
  | some account =>
    if account.emailConfirmed then
      ⟨Except.error (generateError "Email already verified."), db, []⟩
    else
      match account.emailConfirmCode with
      | none =>
        ⟨Except.error (generateError "You must request email verification first."),
         db, []⟩
      | some active =>
        if active ≠ code then
          ⟨Except.error (generateError "Invalid code."), db, []⟩
        else
          let updated := updateFirstBy (fun a => a.userId == userId)
            (fun a => { a with emailConfirmed := true, emailConfirmCode := none })
            db.accounts
          ⟨Except.ok true, { db with accounts := updated.1 },
           [Effect.removeUserCache [userId]]⟩

/-- `sendResetPasswordCode(email)`, lines 43-75: looks the account up by
email, stores a fresh code with a one-hour expiry
(`updateForgotPasswordCode`), and mails the link (or returns it in dev
mode). `newCode` stands for `generateSecureCode()`, `now` for `Date.now()`,
`clientUrl` for `env.CLIENT_URL`. -/
def sendResetPasswordCode (db : Db) (devMode : Bool) (clientUrl newCode : String)
    (now : Nat) (email : String) : Outcome String :=
  match db.accounts.find? (fun a => a.email == email) with
  | none => ⟨Except.error (generateError "Invalid email."), db, []⟩
  | some account =>
    let updated := updateFirstBy (fun a => a.userId == account.userId)
      (fun a => { a with resetPasswordCode := some newCode,
                         resetPasswordCodeExpiresAt := some (now + 60 * 60 * 1000) })
      db.accounts
    let db2 := { db with accounts := updated.1 }
    let url := clientUrl ++ "/reset-password?code=" ++ newCode ++ "&userId="
      ++ account.userId
    if devMode then
      ⟨Except.ok ("DEV MODE: Password reset link: " ++ url), db2, []⟩
    else
      ⟨Except.ok "Password reset link sent to your email.", db2,
       [Effect.mailResetPassword url account.email]⟩

/-- The token issued by `generateToken` of `common/JWT.ts`.
Modelled from the spec: `common/JWT.ts` is not in the sources; the spec says
the service "issues a new token bound to the new password version", so a
token is modelled as the pair it is bound to. -/
structure Token where
  userId : String
  passwordVersion : Nat
  deriving Repr, DecidableEq

/-- Modelled from the spec: `generateToken(userId, passwordVersion)` of
`common/JWT.ts` (not in the sources) issues a token bound to the user id and
the password version. -/
def generateToken (userId : String) (passwordVersion : Nat) : Token :=
  ⟨userId, passwordVersion⟩

/-- The `where` clause of `resetPassword`'s `findFirst`, lines 224-230:
same user id, stored reset code equal to the supplied code, and
`resetPasswordCodeExpiresAt: {gte: new Date()}` — a null expiry never
satisfies `gte`. -/
def resetPasswordMatch (userId code : String) (now : Nat) (a : Account) :
    Bool :=
  a.userId == userId && a.resetPasswordCode == some code &&
    (match a.resetPasswordCodeExpiresAt with
     | some t => now ≤ t
     | none => false)

/-- `resetPassword(opts)`, lines 213-255. `now` stands for `new Date()` at
the `findFirst` call; `hash` for `bcrypt.hash(·, 10)` (an external
collaborator). On success the password is set to the hash of the trimmed new
password, the password version is incremented, the reset code and expiry are
cleared, the read cache is invalidated, a token bound to the new password
version is returned, and the user's sockets are disconnected. -/
def resetPassword (db : Db) (now : Nat) (hash : String → String)
    (userId code newPassword : String) : Outcome Token :=
  if code = "" then
    ⟨Except.error (generateError "Invalid code."), db, []⟩
  else if newPassword = "" then
    ⟨Except.error (generateError "Invalid password."), db, []⟩
  else if userId = "" then
    ⟨Except.error (generateError "Invalid userId."), db, []⟩
  else
    match db.accounts.find? (resetPasswordMatch userId code now) with
    | none => ⟨Except.error (generateError "Invalid or expired code."), db, []⟩
    | some account =>
      let updated := updateFirstBy (fun a => a.userId == userId)
        (fun a => { a with password := hash newPassword.trim,
                           passwordVersion := a.passwordVersion + 1,
                           resetPasswordCode := none,
                           resetPasswordCodeExpiresAt := none })
        db.accounts
      match updated.2 with
      | none =>
        ⟨Except.error (generateError "Record not found."), db, []⟩
      | some updatedRow =>
        ⟨Except.ok (generateToken account.userId updatedRow.passwordVersion),
         { db with accounts := updated.1 },
         Effect.removeUserCache [userId] :: disconnectSocketsEffects userId none⟩

/-- `user._count.servers` of the `deleteAccount` lookup: the number of server
memberships of the user. -/
def countServers (db : Db) (userId : String) : Nat :=
  (db.serverMembers.filter (fun r => r.userId == userId)).length

/-- `user.account._count.applications` of the `deleteAccount` lookup. -/
def countApplications (db : Db) (userId : String) : Nat :=
  (db.applications.filter (fun r => r.userId == userId)).length

/-- The truthiness of `user?.account?._count.applications`: the user has an
account and that account registers at least one application. -/
def applicationsBlock (db : Db) (userId : String) : Bool :=
  match findAccount db userId with
  | none => false
  | some _ => countApplications db userId != 0

/-- `deleteAccountFromDatabase(userId, bot)`, lines 174-202: one transaction
deleting follower rows in both directions, the profile, per-channel
read-state, devices, connections and notices, anonymizing the `User` row
(placeholder username, cleared avatar/banner/badges/customStatus) and
deleting the `Account` row. `tag` stands for `generateTag()`. -/
def deleteAccountFromDatabase (db : Db) (userId : String) (bot : Bool)
    (tag : String) : Db :=
  { db with
    followers := db.followers.filter
      (fun f => !(f.followedById == userId || f.followedToId == userId)),
    userProfiles := db.userProfiles.filter (fun r => !(r.userId == userId)),
    serverChannelLastSeens := db.serverChannelLastSeens.filter
      (fun r => !(r.userId == userId)),
    users := (updateFirstBy (fun u => u.id == userId)
      (fun u => { u with avatar := none, banner := none, badges := 0,
                         customStatus := none,
                         username := "Deleted " ++ (if bot then "Bot" else "User")
                           ++ " " ++ tag })
      db.users).1,
    accounts := db.accounts.filter (fun a => !(a.userId == userId)),
    userDevices := db.userDevices.filter (fun r => !(r.userId == userId)),
    userConnections := db.userConnections.filter (fun r => !(r.userId == userId)),
    chatNotices := db.chatNotices.filter (fun r => !(r.userId == userId)),
    userNotices := db.userNotices.filter (fun r => !(r.userId == userId)) }

/-- `deleteAccount(userId, bot?)`, lines 131-172: fails on an unknown user;
for a non-bot caller fails while any server membership or any registered
application remains, mutating nothing; otherwise runs the deletion
transaction, invalidates the read cache and disconnects the user's
sockets. -/
def deleteAccount (db : Db) (tag : String) (userId : String) (bot : Bool) :
    Outcome Bool :=
  match db.users.find? (fun u => u.id == userId) with
  | none => ⟨Except.error (generateError "Invalid userId."), db, []⟩
  | some _ =>
    if !bot && countServers db userId != 0 then
      ⟨Except.error
        (generateError "You must leave all servers before deleting your account."),
       db, []⟩
    else if !bot && applicationsBlock db userId then
      ⟨Except.error
        (generateError "You must delete all applications before deleting your account."),
       db, []⟩
    else
      ⟨Except.ok true, deleteAccountFromDatabase db userId bot tag,
       Effect.removeUserCache [userId] :: disconnectSocketsEffects userId none⟩

/-! ## List helper lemmas -/

/-- If the first `p`-match of `l` is `a`, `a` satisfies the stronger predicate
`q`, and `q` implies `p`, then `a` is also the first `q`-match of `l`. -/
theorem find?_of_stronger {α : Type} {p q : α → Bool} {a : α} :
    ∀ {l : List α}, l.find? p = some a → q a = true →
      (∀ x, q x = true → p x = true) → l.find? q = some a := by
  intro l
  induction l with
  | nil => intro h _ _; simp [List.find?] at h
  | cons x xs ih =>
    intro h hqa himp
    cases hpx : p x with
    | true =>
      rw [List.find?_cons_of_pos _ hpx] at h
      injection h with h
      subst h
      rw [List.find?_cons_of_pos _ hqa]
    | false =>
      rw [List.find?_cons_of_neg _ (by simp [hpx])] at h
      have hqx : q x = false := by
        cases hqx : q x with
        | true => rw [himp x hqx] at hpx; exact absurd hpx (by simp)
        | false => rfl
      rw [List.find?_cons_of_neg _ (by simp [hqx])]
      exact ih h hqa himp

/-- `updateFirstBy` returns the image of the first match as the updated row. -/
theorem updateFirstBy_snd {α : Type} {p : α → Bool} {f : α → α} {a : α} :
    ∀ {l : List α}, l.find? p = some a →
      (updateFirstBy p f l).2 = some (f a) := by
  intro l
  induction l with
  | nil => intro h; simp [List.find?] at h
  | cons x xs ih =>
    intro h
    cases hpx : p x with
    | true =>
      rw [List.find?_cons_of_pos _ hpx] at h
      injection h with h
      subst h
      simp [updateFirstBy, hpx]
    | false =>
      rw [List.find?_cons_of_neg _ (by simp [hpx])] at h
      simp [updateFirstBy, hpx]
      exact ih h

/-- After `updateFirstBy`, the first `p`-match of the new list is the updated
row, provided the update preserved `p`. -/
theorem updateFirstBy_find? {α : Type} {p : α → Bool} {f : α → α} {a : α}
    (hfa : p (f a) = true) :
    ∀ {l : List α}, l.find? p = some a →
      (updateFirstBy p f l).1.find? p = some (f a) := by
  intro l
  induction l with
  | nil => intro h; simp [List.find?] at h
  | cons x xs ih =>
    intro h
    cases hpx : p x with
    | true =>
      rw [List.find?_cons_of_pos _ hpx] at h
      injection h with h
      subst h
      simp only [updateFirstBy, hpx, if_pos]
      rw [List.find?_cons_of_pos _ hfa]
    | false =>
      rw [List.find?_cons_of_neg _ (by simp [hpx])] at h
      have hstep : (updateFirstBy p f (x :: xs)).1 = x :: (updateFirstBy p f xs).1 := by
        simp [updateFirstBy, hpx]
      rw [hstep, List.find?_cons_of_neg _ (by simp [hpx])]
      exact ih h

/-- The updated row of `updateFirstBy` is `none` exactly when nothing
matched. -/
theorem updateFirstBy_snd_none_iff {α : Type} {p : α → Bool} {f : α → α} :
    ∀ {l : List α}, (updateFirstBy p f l).2 = none ↔ l.find? p = none := by
  intro l
  induction l with
  | nil => simp [updateFirstBy, List.find?]
  | cons x xs ih =>
    cases hpx : p x with
    | true =>
      rw [List.find?_cons_of_pos _ hpx]
      simp [updateFirstBy, hpx]
    | false =>
      rw [List.find?_cons_of_neg _ (by simp [hpx])]
      simp only [updateFirstBy, hpx]
      exact ih

/-- A member of a filtered-out list fails the removed predicate. -/
theorem mem_filter_not {α : Type} {p : α → Bool} {l : List α} {x : α}
    (h : x ∈ l.filter (fun y => !(p y))) : p x = false := by
  have h2 := (List.mem_filter.mp h).2
  simpa using h2

/-! ## Concrete fixtures -/

/-- A server text channel with no inbox metadata. -/
def chanText : ChannelCache :=
  { id := "chan1", chType := ChannelType.SERVER_TEXT, inbox := none,
    serverId := some "srv1" }

/-- A direct-message channel whose recipient cannot be messaged. -/
def chanDmBlocked : ChannelCache :=
  { id := "dm1", chType := ChannelType.DM_TEXT,
    inbox := some { canMessage := false }, serverId := none }

/-- A request with no content and no file on the text channel. -/
def reqEmptyNoFile : RouteRequest :=
  { body := { content := none, socketId := none }, channel := chanText,
    fileInfo := none, userId := "user1" }

/-- A request with no content but a file on the text channel. -/
def reqWithFile : RouteRequest :=
  { body := { content := none, socketId := none }, channel := chanText,
    fileInfo := some { filename := "a.png" }, userId := "user1" }

/-- A request with content on the blocked direct-message channel. -/
def reqDmBlocked : RouteRequest :=
  { body := { content := some "hi", socketId := none }, channel := chanDmBlocked,
    fileInfo := none, userId := "user1" }

/-- A request whose content is the empty string. -/
def reqZeroContent : RouteRequest :=
  { body := { content := some "", socketId := none }, channel := chanText,
    fileInfo := none, userId := "user1" }

/-- A successful upload outcome. -/
def uploadOk : Except UploadError UploadedImage :=
  Except.ok { path := "p", width := 1, height := 1 }

/-! ## Message-creation route theorems -/

/-- C1 (amended): for a message-creation request on a text-capable channel
that passed body validation and the inbox gate, creation fails with 400
"content or attachment is required." iff the content is absent or trims to
the empty string and no file attachment is present. (As originally stated —
without the body-validation condition — the claim fails at the empty-string
content, which trims to empty but is rejected by the length validator with a
different message; see the counterexample.) -/
theorem route_contentOrAttachment_iff
    (req : RouteRequest) (upload : Except UploadError UploadedImage)
    (hv : validateBody req.body = none)
    (hi : inboxBlocked req.channel = false)
    (ht : TextChannelTypes.contains req.channel.chType = true) :
    (route req upload =
        RouteResponse.apiError 400 (generateError "content or attachment is required."))
      ↔ (contentMissing req.body.content = true ∧ req.fileInfo = none) := by
  have hmem : req.channel.chType ∈ TextChannelTypes := by simpa using ht
  cases hcm : contentMissing req.body.content with
  | true =>
    cases hfi : req.fileInfo with
    | none =>
      simp [route, route.routeAfterInbox, hv, hi, hmem, hcm, hfi]
    | some f =>
      cases upload with
      | error e =>
        simp [route, route.routeAfterInbox, hv, hi, hmem, hcm, hfi]
      | ok img =>
        simp [route, route.routeAfterInbox, hv, hi, hmem, hcm, hfi]
  | false =>
    cases hfi : req.fileInfo with
    | none =>
      simp [route, route.routeAfterInbox, hv, hi, hmem, hcm, hfi]
    | some f =>
      cases upload with
      | error e =>
        simp [route, route.routeAfterInbox, hv, hi, hmem, hcm, hfi]
      | ok img =>
        simp [route, route.routeAfterInbox, hv, hi, hmem, hcm, hfi]

/-- C1 witness: the concrete request with neither content nor file. -/
theorem route_contentOrAttachment_iff_witness :
    validateBody reqEmptyNoFile.body = none
    ∧ inboxBlocked reqEmptyNoFile.channel = false
    ∧ TextChannelTypes.contains reqEmptyNoFile.channel.chType = true
    ∧ ((route reqEmptyNoFile uploadOk =
          RouteResponse.apiError 400 (generateError "content or attachment is required."))
        ↔ (contentMissing reqEmptyNoFile.body.content = true
            ∧ reqEmptyNoFile.fileInfo = none)) :=
  ⟨rfl, rfl, rfl, route_contentOrAttachment_iff reqEmptyNoFile uploadOk rfl rfl rfl⟩

/-- The empty string trims to the empty string. -/
theorem trim_empty : "".trim = "" := by
  have hb : Substring.takeWhileAux "" ⟨0⟩ Char.isWhitespace ⟨0⟩ = ⟨0⟩ := by
    unfold Substring.takeWhileAux
    norm_num
  have he : Substring.takeRightWhileAux "" ⟨0⟩ Char.isWhitespace ⟨0⟩ = ⟨0⟩ := by
    unfold Substring.takeRightWhileAux
    norm_num
  show (Substring.trim (String.toSubstring "")).toString = ""
  have h1 : String.toSubstring "" = ⟨"", ⟨0⟩, ⟨0⟩⟩ := rfl
  rw [h1]
  show (Substring.trim ⟨"", ⟨0⟩, ⟨0⟩⟩).toString = ""
  unfold Substring.trim
  simp only
  rw [hb, he]
  rfl

/-- C1 counterexample: the empty-string content with no file is on a
text-capable channel and passes the (bitwise) permission middleware, its
content trims to the empty string and no file is present, yet the request is
rejected with the content-length validation error rather than
"content or attachment is required." — refuting the claim as stated. -/
theorem route_contentOrAttachment_counterexample :
    contentMissing reqZeroContent.body.content = true
    ∧ reqZeroContent.fileInfo = none
    ∧ inboxBlocked reqZeroContent.channel = false
    ∧ TextChannelTypes.contains reqZeroContent.channel.chType = true
    ∧ messageCreatePipeline reqZeroContent 1 1 false uploadOk ≠
        RouteResponse.apiError 400
          (generateError "content or attachment is required.")
    ∧ messageCreatePipeline reqZeroContent 1 1 false uploadOk =
        RouteResponse.apiError 400
          { message := "Content length must be between 1 and 2000 characters.",
            field := some "content" } := by
  refine ⟨?_, rfl, rfl, rfl, ?_, rfl⟩
  · show ("".trim == "") = true
    rw [trim_empty]
    rfl
  · intro h
    simp [messageCreatePipeline, channelPermissionsMiddleware,
          memberHasRolePermissionMiddleware, route, validateBody, contentValid,
          reqZeroContent, chanText, generateError] at h

/-- C2: when a file is attached and ingestion fails, the route answers 403
with the mapped typed reason (a plain string verbatim, `INVALID_IMAGE` as the
images-only message, any other type as the unknown-error message) and
`createMessage` is never invoked. -/
theorem route_uploadFailure_403
    (req : RouteRequest) (e : UploadError)
    (hv : validateBody req.body = none)
    (hi : inboxBlocked req.channel = false)
    (ht : TextChannelTypes.contains req.channel.chType = true)
    (hf : req.fileInfo.isSome = true) :
    route req (Except.error e) =
      RouteResponse.apiError 403 (generateError (uploadErrorMessage e))
    ∧ (∀ m, route req (Except.error e) ≠ RouteResponse.message m)
    ∧ (∀ s, e = UploadError.str s →
        route req (Except.error e) = RouteResponse.apiError 403 (generateError s))
    ∧ (e = UploadError.typed "INVALID_IMAGE" →
        route req (Except.error e) =
          RouteResponse.apiError 403
            (generateError "You can only upload images for now."))
    ∧ (∀ t, e = UploadError.typed t → t ≠ "INVALID_IMAGE" →
        route req (Except.error e) =
          RouteResponse.apiError 403
            (generateError ("An unknown error has occurred (" ++ t ++ ")"))) := by
  cases hfi : req.fileInfo with
  | none => rw [hfi] at hf; simp at hf
  | some f =>
    have hmain : route req (Except.error e) =
        RouteResponse.apiError 403 (generateError (uploadErrorMessage e)) := by
      have hmem : req.channel.chType ∈ TextChannelTypes := by simpa using ht
      simp [route, route.routeAfterInbox, hv, hi, hmem, hfi]
    refine ⟨hmain, ?_, ?_, ?_, ?_⟩
    · intro m
      rw [hmain]
      simp
    · intro s hs
      rw [hmain, hs]
      simp [uploadErrorMessage]
    · intro hs
      rw [hmain, hs]
      simp [uploadErrorMessage]
    · intro t hs hne
      rw [hmain, hs]
      simp [uploadErrorMessage, hne]

/-- C2 witness: an `INVALID_IMAGE` ingestion failure on the file request. -/
theorem route_uploadFailure_403_witness :
    validateBody reqWithFile.body = none
    ∧ inboxBlocked reqWithFile.channel = false
    ∧ TextChannelTypes.contains reqWithFile.channel.chType = true
    ∧ reqWithFile.fileInfo.isSome = true
    ∧ (route reqWithFile (Except.error (UploadError.typed "INVALID_IMAGE")) =
        RouteResponse.apiError 403
          (generateError (uploadErrorMessage (UploadError.typed "INVALID_IMAGE")))
      ∧ (∀ m, route reqWithFile (Except.error (UploadError.typed "INVALID_IMAGE"))
          ≠ RouteResponse.message m)
      ∧ (∀ s, UploadError.typed "INVALID_IMAGE" = UploadError.str s →
          route reqWithFile (Except.error (UploadError.typed "INVALID_IMAGE")) =
            RouteResponse.apiError 403 (generateError s))
      ∧ (UploadError.typed "INVALID_IMAGE" = UploadError.typed "INVALID_IMAGE" →
          route reqWithFile (Except.error (UploadError.typed "INVALID_IMAGE")) =
            RouteResponse.apiError 403
              (generateError "You can only upload images for now."))
      ∧ (∀ t, UploadError.typed "INVALID_IMAGE" = UploadError.typed t →
          t ≠ "INVALID_IMAGE" →
          route reqWithFile (Except.error (UploadError.typed "INVALID_IMAGE")) =
            RouteResponse.apiError 403
              (generateError ("An unknown error has occurred (" ++ t ++ ")")))) :=
  ⟨rfl, rfl, rfl, rfl,
   route_uploadFailure_403 reqWithFile (UploadError.typed "INVALID_IMAGE")
     rfl rfl rfl rfl⟩

/-- C3: for a direct-message channel the pipeline's answer does not depend on
the channel-permission or role-permission bits (the bitwise middleware is
bypassed), and when the recipient's `canMessage` flag is off a validated
request fails with 400 "You cannot message this user." and no message is
created. -/
theorem inbox_bypasses_bitwise_checks
    (req : RouteRequest) (upload : Except UploadError UploadedImage)
    (m : InboxMeta) (cb rb : Nat) (ow : Bool)
    (hin : req.channel.inbox = some m) :
    messageCreatePipeline req cb rb ow upload = route req upload
    ∧ (m.canMessage = false → validateBody req.body = none →
        messageCreatePipeline req cb rb ow upload =
          RouteResponse.apiError 400 (generateError "You cannot message this user.")
        ∧ (∀ mi, messageCreatePipeline req cb rb ow upload ≠ RouteResponse.message mi)) := by
  have hbypass : messageCreatePipeline req cb rb ow upload = route req upload := by
    simp [messageCreatePipeline, channelPermissionsMiddleware,
          memberHasRolePermissionMiddleware, hin]
  refine ⟨hbypass, fun hcm hv => ?_⟩
  have hroute : route req upload =
      RouteResponse.apiError 400 (generateError "You cannot message this user.") := by
    simp [route, hv, inboxBlocked, hin, hcm]
  rw [hbypass, hroute]
  simp

/-- C3 witness: the blocked direct-message request, with arbitrary bits. -/
theorem inbox_bypasses_bitwise_checks_witness :
    reqDmBlocked.channel.inbox = some { canMessage := false }
    ∧ (messageCreatePipeline reqDmBlocked 0 0 false uploadOk = route reqDmBlocked uploadOk
      ∧ ((InboxMeta.mk false).canMessage = false → validateBody reqDmBlocked.body = none →
          messageCreatePipeline reqDmBlocked 0 0 false uploadOk =
            RouteResponse.apiError 400 (generateError "You cannot message this user.")
          ∧ (∀ mi, messageCreatePipeline reqDmBlocked 0 0 false uploadOk
              ≠ RouteResponse.message mi))) :=
  ⟨rfl, inbox_bypasses_bitwise_checks reqDmBlocked uploadOk
    { canMessage := false } 0 0 false rfl⟩

/-- C9: the content validator accepts exactly the lengths 1 through 2000 —
in particular lengths 1 and 2000 — and the route rejects lengths 0 and 2001
with the 400 content-length validation error. -/
theorem content_length_boundary
    (req : RouteRequest) (upload : Except UploadError UploadedImage) (s : String)
    (hc : req.body.content = some s) :
    (contentValid (some s) = true ↔ (1 ≤ s.length ∧ s.length ≤ 2000))
    ∧ (s.length = 1 → contentValid (some s) = true)
    ∧ (s.length = 2000 → contentValid (some s) = true)
    ∧ (s.length = 0 →
        route req upload = RouteResponse.apiError 400
          { message := "Content length must be between 1 and 2000 characters.",
            field := some "content" })
    ∧ (s.length = 2001 →
        route req upload = RouteResponse.apiError 400
          { message := "Content length must be between 1 and 2000 characters.",
            field := some "content" }) := by
  refine ⟨by simp [contentValid], ?_, ?_, ?_, ?_⟩
  · intro h; simp [contentValid, h]
  · intro h; simp [contentValid, h]
  · intro h
    simp [route, validateBody, hc, contentValid, h]
  · intro h
    simp [route, validateBody, hc, contentValid, h]

/-- C9 witness: the empty-content request is rejected with the content-length
validation error. -/
theorem content_length_boundary_witness :
    reqZeroContent.body.content = some ""
    ∧ ((contentValid (some "") = true ↔ (1 ≤ String.length "" ∧ String.length "" ≤ 2000))
      ∧ (String.length "" = 1 → contentValid (some "") = true)
      ∧ (String.length "" = 2000 → contentValid (some "") = true)
      ∧ (String.length "" = 0 →
          route reqZeroContent uploadOk = RouteResponse.apiError 400
            { message := "Content length must be between 1 and 2000 characters.",
              field := some "content" })
      ∧ (String.length "" = 2001 →
          route reqZeroContent uploadOk = RouteResponse.apiError 400
            { message := "Content length must be between 1 and 2000 characters.",
              field := some "content" })) :=
  ⟨rfl, content_length_boundary reqZeroContent uploadOk "" rfl⟩

/-! ## Password-reset theorems -/

/-- If the first `q`-match exists and `q` implies `p`, some `p`-match exists. -/
theorem find?_isSome_of_weaker {α : Type} {p q : α → Bool} {a : α} {l : List α}
    (h : l.find? q = some a) (himp : ∀ x, q x = true → p x = true) :
    (l.find? p).isSome = true := by
  cases hp : l.find? p with
  | some b => rfl
  | none =>
    have hmem := List.mem_of_find?_eq_some h
    have hqa := List.find?_some h
    have hnp := List.find?_eq_none.mp hp a hmem
    exact absurd (himp a hqa) hnp

/-- A triple-match (`resetPasswordMatch`) is in particular a user-id match. -/
theorem resetPasswordMatch_userId {userId code : String} {now : Nat}
    {x : Account} (hx : resetPasswordMatch userId code now x = true) :
    (x.userId == userId) = true := by
  simp only [resetPasswordMatch, Bool.and_eq_true] at hx
  exact hx.1.1

/-- Core success lemma for `resetPassword`: when the first account with the
caller's user id satisfies the (userId, code, unexpired) triple, the call
returns a token bound to the incremented password version, stores the hash of
the trimmed password, clears the reset code and expiry, invalidates the read
cache and disconnects the user's sockets. -/
theorem resetPassword_ok_core
    (db : Db) (now : Nat) (hash : String → String)
    (userId code newPassword : String) (account : Account)
    (hc : code ≠ "") (hp : newPassword ≠ "") (hu : userId ≠ "")
    (hfind : findAccount db userId = some account)
    (hmatch : resetPasswordMatch userId code now account = true) :
    (resetPassword db now hash userId code newPassword).result =
      Except.ok (generateToken userId (account.passwordVersion + 1))
    ∧ findAccount (resetPassword db now hash userId code newPassword).db userId =
        some { account with password := hash newPassword.trim,
                            passwordVersion := account.passwordVersion + 1,
                            resetPasswordCode := none,
                            resetPasswordCodeExpiresAt := none }
    ∧ (resetPassword db now hash userId code newPassword).effects =
        [Effect.removeUserCache [userId], Effect.emitAuthError userId none,
         Effect.disconnect userId none] := by
  have hfindL : db.accounts.find? (fun a => a.userId == userId) = some account :=
    hfind
  have huid : account.userId = userId := by
    simpa using List.find?_some hfindL
  have himp : ∀ x, resetPasswordMatch userId code now x = true →
      (x.userId == userId) = true := fun x hx => resetPasswordMatch_userId hx
  have hstrongfind : db.accounts.find? (resetPasswordMatch userId code now) =
      some account :=
    find?_of_stronger hfindL hmatch himp
  have hupd := updateFirstBy_snd
    (f := fun (a : Account) =>
      { a with password := hash newPassword.trim,
               passwordVersion := a.passwordVersion + 1,
               resetPasswordCode := none,
               resetPasswordCodeExpiresAt := none }) hfindL
  have hfind1 := updateFirstBy_find?
    (p := fun (a : Account) => a.userId == userId)
    (f := fun (a : Account) =>
      { a with password := hash newPassword.trim,
               passwordVersion := a.passwordVersion + 1,
               resetPasswordCode := none,
               resetPasswordCodeExpiresAt := none })
    (by simp [huid]) hfindL
  refine ⟨?_, ?_, ?_⟩ <;>
    simp [resetPassword, hc, hp, hu, hstrongfind, hupd, findAccount, hfind1,
          generateToken, huid, disconnectSocketsEffects]

/-- C4: with non-empty inputs, `resetPassword` fails with
"Invalid or expired code." exactly when no account matches the
(userId, code, unexpired) triple — in particular when the stored expiry lies
in the past — and on that failure the database (hence the stored password) is
unchanged and no side effect is triggered. -/
theorem resetPassword_invalidOrExpired_iff
    (db : Db) (now : Nat) (hash : String → String)
    (userId code newPassword : String)
    (hc : code ≠ "") (hp : newPassword ≠ "") (hu : userId ≠ "") :
    ((resetPassword db now hash userId code newPassword).result =
        Except.error (generateError "Invalid or expired code.")
      ↔ db.accounts.find? (resetPasswordMatch userId code now) = none)
    ∧ (db.accounts.find? (resetPasswordMatch userId code now) = none →
        (resetPassword db now hash userId code newPassword).db = db
        ∧ (resetPassword db now hash userId code newPassword).effects = []) := by
  cases hfind : db.accounts.find? (resetPasswordMatch userId code now) with
  | none =>
    refine ⟨⟨fun _ => rfl, fun _ => ?_⟩, fun _ => ⟨?_, ?_⟩⟩ <;>
      simp [resetPassword, hc, hp, hu, hfind]
  | some account =>
    have himp : ∀ x, resetPasswordMatch userId code now x = true →
        (x.userId == userId) = true := fun x hx => resetPasswordMatch_userId hx
    have hsome := find?_isSome_of_weaker hfind himp
    obtain ⟨b, hb⟩ : ∃ b, db.accounts.find? (fun a => a.userId == userId) = some b := by
      cases hw : db.accounts.find? (fun a => a.userId == userId) with
      | some b => exact ⟨b, rfl⟩
      | none => rw [hw] at hsome; simp at hsome
    have hupd := updateFirstBy_snd
      (f := fun (a : Account) =>
        { a with password := hash newPassword.trim,
                 passwordVersion := a.passwordVersion + 1,
                 resetPasswordCode := none,
                 resetPasswordCodeExpiresAt := none }) hb
    refine ⟨⟨fun hres => ?_, fun hnone => ?_⟩, fun hnone => ?_⟩
    · exfalso
      simp [resetPassword, hc, hp, hu, hfind, hupd] at hres
    · exact absurd hnone (by simp)
    · exact absurd hnone (by simp)

/-- C5: on a successful `resetPassword`, the new password's hash is stored,
the password version is incremented by exactly one, the reset code and expiry
are cleared, the read cache is invalidated, the returned token is bound to
the new password version, and the user's live realtime sessions are
disconnected. -/
theorem resetPassword_success
    (db : Db) (now : Nat) (hash : String → String)
    (userId code newPassword : String) (account : Account)
    (hc : code ≠ "") (hp : newPassword ≠ "") (hu : userId ≠ "")
    (hfind : findAccount db userId = some account)
    (hmatch : resetPasswordMatch userId code now account = true) :
    (resetPassword db now hash userId code newPassword).result =
      Except.ok (generateToken userId (account.passwordVersion + 1))
    ∧ findAccount (resetPassword db now hash userId code newPassword).db userId =
        some { account with password := hash newPassword.trim,
                            passwordVersion := account.passwordVersion + 1,
                            resetPasswordCode := none,
                            resetPasswordCodeExpiresAt := none }
    ∧ (resetPassword db now hash userId code newPassword).effects =
        [Effect.removeUserCache [userId], Effect.emitAuthError userId none,
         Effect.disconnect userId none] :=
  resetPassword_ok_core db now hash userId code newPassword account
    hc hp hu hfind hmatch

/-- C10: a whitespace-only new password passes the non-empty precondition
(which rejects only the empty string), the call succeeds, and the stored
password is the hash of the empty string (the password is trimmed before
hashing). -/
theorem resetPassword_whitespace_password
    (db : Db) (now : Nat) (hash : String → String)
    (userId code newPassword : String) (account : Account)
    (hc : code ≠ "") (hp : newPassword ≠ "") (hw : newPassword.trim = "")
    (hu : userId ≠ "")
    (hfind : findAccount db userId = some account)
    (hmatch : resetPasswordMatch userId code now account = true) :
    (resetPassword db now hash userId code newPassword).result =
      Except.ok (generateToken userId (account.passwordVersion + 1))
    ∧ findAccount (resetPassword db now hash userId code newPassword).db userId =
        some { account with password := hash "",
                            passwordVersion := account.passwordVersion + 1,
                            resetPasswordCode := none,
                            resetPasswordCodeExpiresAt := none } := by
  have h := resetPassword_ok_core db now hash userId code newPassword account
    hc hp hu hfind hmatch
  rw [hw] at h
  exact ⟨h.1, h.2.1⟩

/-- The single-space string trims to the empty string (evaluated through the
well-founded `Substring.takeWhileAux`). -/
theorem trim_space : " ".trim = "" := by
  have hb : Substring.takeWhileAux " " ⟨1⟩ Char.isWhitespace ⟨0⟩ = ⟨1⟩ := by
    unfold Substring.takeWhileAux
    norm_num [String.get, String.next]
    have hg : String.utf8GetAux [' '] 0 0 = ' ' := rfl
    rw [hg]
    show Substring.takeWhileAux " " ⟨1⟩ Char.isWhitespace ⟨1⟩ = ⟨1⟩
    unfold Substring.takeWhileAux
    norm_num
  have he : Substring.takeRightWhileAux " " ⟨1⟩ Char.isWhitespace ⟨1⟩ = ⟨1⟩ := by
    unfold Substring.takeRightWhileAux
    norm_num
  show (Substring.trim (String.toSubstring " ")).toString = ""
  have h1 : String.toSubstring " " = ⟨" ", ⟨0⟩, ⟨1⟩⟩ := rfl
  rw [h1]
  show (Substring.trim ⟨" ", ⟨0⟩, ⟨1⟩⟩).toString = ""
  unfold Substring.trim
  simp only
  rw [hb, he]
  rfl

/-! ## Account-security fixtures -/

/-- An empty database. -/
def dbEmptyRows : Db :=
  { accounts := [], users := [], followers := [], userProfiles := [],
    serverChannelLastSeens := [], userDevices := [], userConnections := [],
    chatNotices := [], userNotices := [], serverMembers := [],
    applications := [] }

/-- An unconfirmed account with a pending reset code expiring at time 1000. -/
def acctReset : Account :=
  { userId := "u1", email := "u1@example.com", password := "oldhash",
    passwordVersion := 3, emailConfirmed := false, emailConfirmCode := none,
    resetPasswordCode := some "CODE", resetPasswordCodeExpiresAt := some 1000 }

/-- A database holding only `acctReset`. -/
def dbReset : Db := { dbEmptyRows with accounts := [acctReset] }

/-- C4 witness: at time 4000 the code "CODE" matches but its expiry (1000) is
past, so the call fails and the database is unchanged. -/
theorem resetPassword_invalidOrExpired_iff_witness :
    "CODE" ≠ "" ∧ "npw" ≠ "" ∧ "u1" ≠ ""
    ∧ (((resetPassword dbReset 4000 (fun s => s) "u1" "CODE" "npw").result =
          Except.error (generateError "Invalid or expired code.")
        ↔ dbReset.accounts.find? (resetPasswordMatch "u1" "CODE" 4000) = none)
      ∧ (dbReset.accounts.find? (resetPasswordMatch "u1" "CODE" 4000) = none →
          (resetPassword dbReset 4000 (fun s => s) "u1" "CODE" "npw").db = dbReset
          ∧ (resetPassword dbReset 4000 (fun s => s) "u1" "CODE" "npw").effects = [])) :=
  ⟨by decide, by decide, by decide,
   resetPassword_invalidOrExpired_iff dbReset 4000 (fun s => s) "u1" "CODE" "npw"
     (by decide) (by decide) (by decide)⟩

/-- C5 witness: at time 500 the code "CODE" is unexpired and the call
succeeds with all the stated effects. -/
theorem resetPassword_success_witness :
    "CODE" ≠ "" ∧ "npw" ≠ "" ∧ "u1" ≠ ""
    ∧ findAccount dbReset "u1" = some acctReset
    ∧ resetPasswordMatch "u1" "CODE" 500 acctReset = true
    ∧ ((resetPassword dbReset 500 (fun s => "H:" ++ s) "u1" "CODE" "npw").result =
        Except.ok (generateToken "u1" (acctReset.passwordVersion + 1))
      ∧ findAccount (resetPassword dbReset 500 (fun s => "H:" ++ s) "u1" "CODE" "npw").db "u1" =
          some { acctReset with password := (fun s => "H:" ++ s) (String.trim "npw"),
                                passwordVersion := acctReset.passwordVersion + 1,
                                resetPasswordCode := none,
                                resetPasswordCodeExpiresAt := none }
      ∧ (resetPassword dbReset 500 (fun s => "H:" ++ s) "u1" "CODE" "npw").effects =
          [Effect.removeUserCache ["u1"], Effect.emitAuthError "u1" none,
           Effect.disconnect "u1" none]) :=
  ⟨by decide, by decide, by decide, rfl, by decide,
   resetPassword_success dbReset 500 (fun s => "H:" ++ s) "u1" "CODE" "npw"
     acctReset (by decide) (by decide) (by decide) rfl (by decide)⟩

/-- C10 witness: the whitespace-only password " " is accepted and the stored
password is the hash of the empty string. -/
theorem resetPassword_whitespace_password_witness :
    "CODE" ≠ "" ∧ " " ≠ "" ∧ " ".trim = "" ∧ "u1" ≠ ""
    ∧ findAccount dbReset "u1" = some acctReset
    ∧ resetPasswordMatch "u1" "CODE" 500 acctReset = true
    ∧ ((resetPassword dbReset 500 (fun s => "H:" ++ s) "u1" "CODE" " ").result =
        Except.ok (generateToken "u1" (acctReset.passwordVersion + 1))
      ∧ findAccount (resetPassword dbReset 500 (fun s => "H:" ++ s) "u1" "CODE" " ").db "u1" =
          some { acctReset with password := (fun s => "H:" ++ s) "",
                                passwordVersion := acctReset.passwordVersion + 1,
                                resetPasswordCode := none,
                                resetPasswordCodeExpiresAt := none }) :=
  ⟨by decide, by decide, trim_space, by decide, rfl, by decide,
   resetPassword_whitespace_password dbReset 500 (fun s => "H:" ++ s) "u1" "CODE"
     " " acctReset (by decide) (by decide) trim_space (by decide) rfl (by decide)⟩

/-! ## Email-confirmation theorems -/

/-- Sending a code to an already-confirmed account fails and changes
nothing. -/
theorem sendCode_confirmed_error (db : Db) (dev : Bool) (c uid : String)
    (a : Account) (hfind : findAccount db uid = some a)
    (hconf : a.emailConfirmed = true) :
    (sendEmailConfirmCode db dev c uid).result =
      Except.error (generateError "Email already verified.")
    ∧ (sendEmailConfirmCode db dev c uid).db = db
    ∧ (sendEmailConfirmCode db dev c uid).effects = [] := by
  refine ⟨?_, ?_, ?_⟩ <;> simp [sendEmailConfirmCode, hfind, hconf]

/-- Sending a code to an unconfirmed account overwrites any prior code; in
dev mode the code is returned in the response with no mail effect, otherwise
a generic message is returned and the code is mailed. -/
theorem sendCode_unconfirmed_spec (db : Db) (dev : Bool) (c uid : String)
    (a : Account) (hfind : findAccount db uid = some a)
    (hconf : a.emailConfirmed = false) :
    findAccount (sendEmailConfirmCode db dev c uid).db uid =
      some { a with emailConfirmCode := some c }
    ∧ (dev = true →
        (sendEmailConfirmCode db dev c uid).result =
          Except.ok ("DEV MODE: Email verify code: " ++ c)
        ∧ (sendEmailConfirmCode db dev c uid).effects = [])
    ∧ (dev = false →
        (sendEmailConfirmCode db dev c uid).result =
          Except.ok "Email confirmation code sent."
        ∧ (sendEmailConfirmCode db dev c uid).effects =
            [Effect.mailConfirmCode c a.email]) := by
  have hfindL : db.accounts.find? (fun x => x.userId == uid) = some a := hfind
  have huid : a.userId = uid := by simpa using List.find?_some hfindL
  have hfind1 := updateFirstBy_find?
    (p := fun (x : Account) => x.userId == uid)
    (f := fun (x : Account) => { x with emailConfirmCode := some c })
    (by simp [huid]) hfindL
  cases dev with
  | true =>
    refine ⟨?_, fun _ => ⟨?_, ?_⟩, ?_⟩ <;>
      simp [sendEmailConfirmCode, hfind, hfindL, hconf, findAccount, hfind1]
  | false =>
    refine ⟨?_, ?_, fun _ => ⟨?_, ?_⟩⟩ <;>
      simp [sendEmailConfirmCode, hfind, hfindL, hconf, findAccount, hfind1]

/-- Verifying against an already-confirmed account fails. -/
theorem verify_confirmed_error (db : Db) (uid c : String) (a : Account)
    (hfind : findAccount db uid = some a)
    (hconf : a.emailConfirmed = true) :
    (verifyEmailConfirmCode db uid c).result =
      Except.error (generateError "Email already verified.") := by
  simp [verifyEmailConfirmCode, hfind, hconf]

/-- Verifying with no active code fails. -/
theorem verify_noCode_error (db : Db) (uid c : String) (a : Account)
    (hfind : findAccount db uid = some a)
    (hconf : a.emailConfirmed = false)
    (hcode : a.emailConfirmCode = none) :
    (verifyEmailConfirmCode db uid c).result =
      Except.error (generateError "You must request email verification first.") := by
  simp [verifyEmailConfirmCode, hfind, hconf, hcode]

/-- Verifying with a code different from the active one fails. -/
theorem verify_mismatch_error (db : Db) (uid c c₀ : String) (a : Account)
    (hfind : findAccount db uid = some a)
    (hconf : a.emailConfirmed = false)
    (hcode : a.emailConfirmCode = some c₀)
    (hne : c ≠ c₀) :
    (verifyEmailConfirmCode db uid c).result =
      Except.error (generateError "Invalid code.") := by
  simp [verifyEmailConfirmCode, hfind, hconf, hcode, Ne.symm hne]

/-- Verifying with the active code succeeds: the account becomes confirmed,
the code is cleared and the read cache is invalidated. -/
theorem verify_ok_spec (db : Db) (uid c : String) (a : Account)
    (hfind : findAccount db uid = some a)
    (hconf : a.emailConfirmed = false)
    (hcode : a.emailConfirmCode = some c) :
    (verifyEmailConfirmCode db uid c).result = Except.ok true
    ∧ findAccount (verifyEmailConfirmCode db uid c).db uid =
        some { a with emailConfirmed := true, emailConfirmCode := none }
    ∧ (verifyEmailConfirmCode db uid c).effects =
        [Effect.removeUserCache [uid]] := by
  have hfindL : db.accounts.find? (fun x => x.userId == uid) = some a := hfind
  have huid : a.userId = uid := by simpa using List.find?_some hfindL
  have hfind1 := updateFirstBy_find?
    (p := fun (x : Account) => x.userId == uid)
    (f := fun (x : Account) =>
      { x with emailConfirmed := true, emailConfirmCode := none })
    (by simp [huid]) hfindL
  refine ⟨?_, ?_, ?_⟩ <;>
    simp [verifyEmailConfirmCode, hfind, hfindL, hconf, hcode, findAccount, hfind1]

/-- C8: `sendEmailConfirmCode` fails when the email is already confirmed;
otherwise it stores a fresh code overwriting any prior one, returning the
code directly (and mailing nothing) in development mode, or mailing the code
and returning a generic message otherwise. -/
theorem sendEmailConfirmCode_spec (db : Db) (dev : Bool) (newCode uid : String)
    (a : Account) (hfind : findAccount db uid = some a) :
    (a.emailConfirmed = true →
      (sendEmailConfirmCode db dev newCode uid).result =
        Except.error (generateError "Email already verified.")
      ∧ (sendEmailConfirmCode db dev newCode uid).db = db
      ∧ (sendEmailConfirmCode db dev newCode uid).effects = [])
    ∧ (a.emailConfirmed = false →
        findAccount (sendEmailConfirmCode db dev newCode uid).db uid =
          some { a with emailConfirmCode := some newCode }
        ∧ (dev = true →
            (sendEmailConfirmCode db dev newCode uid).result =
              Except.ok ("DEV MODE: Email verify code: " ++ newCode)
            ∧ (sendEmailConfirmCode db dev newCode uid).effects = [])
        ∧ (dev = false →
            (sendEmailConfirmCode db dev newCode uid).result =
              Except.ok "Email confirmation code sent."
            ∧ (sendEmailConfirmCode db dev newCode uid).effects =
                [Effect.mailConfirmCode newCode a.email])) :=
  ⟨fun hconf => sendCode_confirmed_error db dev newCode uid a hfind hconf,
   fun hconf => sendCode_unconfirmed_spec db dev newCode uid a hfind hconf⟩

/-- C8 witness: on the unconfirmed fixture in dev mode, the code is stored
and returned directly. -/
theorem sendEmailConfirmCode_spec_witness :
    findAccount dbReset "u1" = some acctReset
    ∧ findAccount (sendEmailConfirmCode dbReset true "C1" "u1").db "u1" =
        some { acctReset with emailConfirmCode := some "C1" }
    ∧ (sendEmailConfirmCode dbReset true "C1" "u1").result =
        Except.ok ("DEV MODE: Email verify code: " ++ "C1") :=
  ⟨rfl,
   ((sendEmailConfirmCode_spec dbReset true "C1" "u1" acctReset rfl).2 rfl).1,
   (((sendEmailConfirmCode_spec dbReset true "C1" "u1" acctReset rfl).2 rfl).2.1 rfl).1⟩

/-- C6: the email-confirmation one-shot state machine: with no active code
verification fails with the request-first error; a wrong code fails with
"Invalid code."; a second send overwrites the first code, the stale first
code then fails, the latest code succeeds exactly once (setting
`emailConfirmed`, clearing the code, invalidating the read cache), and
afterwards any verify or send fails with "Email already verified.". -/
theorem emailConfirm_state_machine
    (db : Db) (uid stale c1 c2 : String) (dev1 dev2 : Bool) (a : Account)
    (hfind : findAccount db uid = some a)
    (hconf : a.emailConfirmed = false) :
    (∀ c, a.emailConfirmCode = none →
      (verifyEmailConfirmCode db uid c).result =
        Except.error (generateError "You must request email verification first."))
    ∧ (∀ c c₀, a.emailConfirmCode = some c₀ → c ≠ c₀ →
        (verifyEmailConfirmCode db uid c).result =
          Except.error (generateError "Invalid code."))
    ∧ (findAccount
        (sendEmailConfirmCode (sendEmailConfirmCode db dev1 c1 uid).db dev2 c2 uid).db
        uid = some { a with emailConfirmCode := some c2 })
    ∧ (stale ≠ c2 →
        (verifyEmailConfirmCode
          (sendEmailConfirmCode (sendEmailConfirmCode db dev1 c1 uid).db dev2 c2 uid).db
          uid stale).result = Except.error (generateError "Invalid code."))
    ∧ ((verifyEmailConfirmCode
          (sendEmailConfirmCode (sendEmailConfirmCode db dev1 c1 uid).db dev2 c2 uid).db
          uid c2).result = Except.ok true)
    ∧ (findAccount
        (verifyEmailConfirmCode
          (sendEmailConfirmCode (sendEmailConfirmCode db dev1 c1 uid).db dev2 c2 uid).db
          uid c2).db uid =
        some { a with emailConfirmed := true, emailConfirmCode := none })
    ∧ ((verifyEmailConfirmCode
          (sendEmailConfirmCode (sendEmailConfirmCode db dev1 c1 uid).db dev2 c2 uid).db
          uid c2).effects = [Effect.removeUserCache [uid]])
    ∧ (∀ c, (verifyEmailConfirmCode
          (verifyEmailConfirmCode
            (sendEmailConfirmCode (sendEmailConfirmCode db dev1 c1 uid).db dev2 c2 uid).db
            uid c2).db uid c).result =
        Except.error (generateError "Email already verified."))
    ∧ (∀ c dev, (sendEmailConfirmCode
          (verifyEmailConfirmCode
            (sendEmailConfirmCode (sendEmailConfirmCode db dev1 c1 uid).db dev2 c2 uid).db
            uid c2).db dev c uid).result =
        Except.error (generateError "Email already verified.")) := by
  have h1 : findAccount (sendEmailConfirmCode db dev1 c1 uid).db uid =
      some { a with emailConfirmCode := some c1 } :=
    (sendCode_unconfirmed_spec db dev1 c1 uid a hfind hconf).1
  have h2 : findAccount
      (sendEmailConfirmCode (sendEmailConfirmCode db dev1 c1 uid).db dev2 c2 uid).db
      uid = some { a with emailConfirmCode := some c2 } :=
    (sendCode_unconfirmed_spec (sendEmailConfirmCode db dev1 c1 uid).db dev2 c2 uid
      { a with emailConfirmCode := some c1 } h1 hconf).1
  have hok := verify_ok_spec
    (sendEmailConfirmCode (sendEmailConfirmCode db dev1 c1 uid).db dev2 c2 uid).db
    uid c2 { a with emailConfirmCode := some c2 } h2 hconf rfl
  have h3 : findAccount
      (verifyEmailConfirmCode
        (sendEmailConfirmCode (sendEmailConfirmCode db dev1 c1 uid).db dev2 c2 uid).db
        uid c2).db uid =
      some { a with emailConfirmed := true, emailConfirmCode := none } :=
    hok.2.1
  refine ⟨?_, ?_, h2, ?_, hok.1, h3, hok.2.2, ?_, ?_⟩
  · intro c hcode
    exact verify_noCode_error db uid c a hfind hconf hcode
  · intro c c₀ hcode hne
    exact verify_mismatch_error db uid c c₀ a hfind hconf hcode hne
  · intro hne
    exact verify_mismatch_error _ uid stale c2
      { a with emailConfirmCode := some c2 } h2 hconf rfl hne
  · intro c
    exact verify_confirmed_error _ uid c
      { a with emailConfirmed := true, emailConfirmCode := none } h3 rfl
  · intro c dev
    exact (sendCode_confirmed_error _ dev c uid
      { a with emailConfirmed := true, emailConfirmCode := none } h3 rfl).1

/-- C6 witness: on the unconfirmed fixture, after sending "C1" then "C2",
the stale "C1" fails and "C2" verifies successfully. -/
theorem emailConfirm_state_machine_witness :
    findAccount dbReset "u1" = some acctReset
    ∧ acctReset.emailConfirmed = false
    ∧ (verifyEmailConfirmCode
        (sendEmailConfirmCode (sendEmailConfirmCode dbReset true "C1" "u1").db
          true "C2" "u1").db "u1" "C2").result = Except.ok true
    ∧ ("C1" ≠ "C2" →
        (verifyEmailConfirmCode
          (sendEmailConfirmCode (sendEmailConfirmCode dbReset true "C1" "u1").db
            true "C2" "u1").db "u1" "C1").result =
          Except.error (generateError "Invalid code.")) :=
  ⟨rfl, rfl,
   (emailConfirm_state_machine dbReset "u1" "C1" "C1" "C2" true true acctReset
     rfl rfl).2.2.2.2.1,
   (emailConfirm_state_machine dbReset "u1" "C1" "C1" "C2" true true acctReset
     rfl rfl).2.2.2.1⟩

/-! ## Account-deletion theorems -/

/-- Rows surviving a `deleteMany({where: {userId}})` have another user id. -/
theorem filter_out_ne {α : Type} (g : α → String) (uid : String) (l : List α) :
    ∀ x ∈ l.filter (fun y => !(g y == uid)), g x ≠ uid := by
  intro x hx
  have h2 := (List.mem_filter.mp hx).2
  simp at h2
  exact h2

/-- Follower rows surviving the two-sided `deleteMany` reference the user in
neither direction. -/
theorem filter_out_follower (uid : String) (l : List Follower) :
    ∀ x ∈ l.filter
      (fun y => !(y.followedById == uid || y.followedToId == uid)),
      x.followedById ≠ uid ∧ x.followedToId ≠ uid := by
  intro x hx
  have h2 := (List.mem_filter.mp hx).2
  simp at h2
  exact h2

/-- C7: for a non-bot caller, `deleteAccount` fails with the server-membership
reason (then the application reason) without mutating anything; on success —
for a bot unconditionally, or with zero memberships and applications — the
transaction anonymizes the User row, deletes the Account row and every
dependent row, and afterwards the read cache is invalidated and the user's
sockets are disconnected. -/
theorem deleteAccount_spec (db : Db) (tag uid : String) (u : User)
    (hu : db.users.find? (fun x => x.id == uid) = some u) :
    (countServers db uid ≠ 0 →
      (deleteAccount db tag uid false).result =
        Except.error
          (generateError "You must leave all servers before deleting your account.")
      ∧ (deleteAccount db tag uid false).db = db
      ∧ (deleteAccount db tag uid false).effects = [])
    ∧ (countServers db uid = 0 → applicationsBlock db uid = true →
        (deleteAccount db tag uid false).result =
          Except.error
            (generateError "You must delete all applications before deleting your account.")
        ∧ (deleteAccount db tag uid false).db = db
        ∧ (deleteAccount db tag uid false).effects = [])
    ∧ (∀ bot : Bool,
        (bot = true ∨ (countServers db uid = 0 ∧ applicationsBlock db uid = false)) →
        (deleteAccount db tag uid bot).result = Except.ok true
        ∧ (deleteAccount db tag uid bot).effects =
            [Effect.removeUserCache [uid], Effect.emitAuthError uid none,
             Effect.disconnect uid none]
        ∧ (deleteAccount db tag uid bot).db.users.find? (fun x => x.id == uid) =
            some { u with avatar := none, banner := none, badges := 0,
                          customStatus := none,
                          username := "Deleted " ++ (if bot then "Bot" else "User")
                            ++ " " ++ tag }
        ∧ (∀ a ∈ (deleteAccount db tag uid bot).db.accounts, a.userId ≠ uid)
        ∧ (∀ f ∈ (deleteAccount db tag uid bot).db.followers,
            f.followedById ≠ uid ∧ f.followedToId ≠ uid)
        ∧ (∀ r ∈ (deleteAccount db tag uid bot).db.userProfiles, r.userId ≠ uid)
        ∧ (∀ r ∈ (deleteAccount db tag uid bot).db.serverChannelLastSeens,
            r.userId ≠ uid)
        ∧ (∀ r ∈ (deleteAccount db tag uid bot).db.userDevices, r.userId ≠ uid)
        ∧ (∀ r ∈ (deleteAccount db tag uid bot).db.userConnections, r.userId ≠ uid)
        ∧ (∀ r ∈ (deleteAccount db tag uid bot).db.chatNotices, r.userId ≠ uid)
        ∧ (∀ r ∈ (deleteAccount db tag uid bot).db.userNotices, r.userId ≠ uid)) := by
  have huid : u.id = uid := by simpa using List.find?_some hu
  refine ⟨fun hs => ?_, fun hs0 happ => ?_, fun bot hcase => ?_⟩
  · refine ⟨?_, ?_, ?_⟩ <;> simp [deleteAccount, hu, hs]
  · refine ⟨?_, ?_, ?_⟩ <;> simp [deleteAccount, hu, hs0, happ]
  · have hfind1 := updateFirstBy_find?
      (p := fun (x : User) => x.id == uid)
      (f := fun (x : User) =>
        { x with avatar := none, banner := none, badges := 0,
                 customStatus := none,
                 username := "Deleted " ++ (if bot then "Bot" else "User")
                   ++ " " ++ tag })
      (by simp [huid]) hu
    have hred : deleteAccount db tag uid bot =
        ⟨Except.ok true, deleteAccountFromDatabase db uid bot tag,
         Effect.removeUserCache [uid] :: disconnectSocketsEffects uid none⟩ := by
      rcases hcase with hbot | ⟨hs0, happ⟩
      · subst hbot
        simp [deleteAccount, hu]
      · cases bot with
        | true => simp [deleteAccount, hu]
        | false => simp [deleteAccount, hu, hs0, happ]
    refine ⟨?_, ?_, ?_, ?_, ?_, ?_, ?_, ?_, ?_, ?_, ?_⟩
    · rw [hred]
    · rw [hred]
      simp [disconnectSocketsEffects]
    · rw [hred]
      show (deleteAccountFromDatabase db uid bot tag).users.find?
        (fun x => x.id == uid) = _
      simp only [deleteAccountFromDatabase]
      exact hfind1
    · rw [hred]
      exact filter_out_ne (fun a => a.userId) uid db.accounts
    · rw [hred]
      exact filter_out_follower uid db.followers
    · rw [hred]
      exact filter_out_ne (fun r => r.userId) uid db.userProfiles
    · rw [hred]
      exact filter_out_ne (fun r => r.userId) uid db.serverChannelLastSeens
    · rw [hred]
      exact filter_out_ne (fun r => r.userId) uid db.userDevices
    · rw [hred]
      exact filter_out_ne (fun r => r.userId) uid db.userConnections
    · rw [hred]
      exact filter_out_ne (fun r => r.userId) uid db.chatNotices
    · rw [hred]
      exact filter_out_ne (fun r => r.userId) uid db.userNotices

/-- The user row of the deletion fixture. -/
def userU1 : User :=
  { id := "u1", username := "Alice", avatar := some "av.png",
    banner := none, badges := 2, customStatus := some "hi" }

/-- A database where user u1 has an account, one server membership and one
follow relation. -/
def dbDel : Db :=
  { dbEmptyRows with
    users := [userU1],
    accounts := [acctReset],
    serverMembers := [{ id := "m1", userId := "u1" }],
    followers := [{ id := "f1", followedById := "u1", followedToId := "u2" }] }

/-- C7 witness: with one server membership the non-bot deletion fails without
mutation, while the bot path bypasses the precondition and succeeds. -/
theorem deleteAccount_spec_witness :
    dbDel.users.find? (fun x => x.id == "u1") = some userU1
    ∧ countServers dbDel "u1" ≠ 0
    ∧ ((deleteAccount dbDel "TAG" "u1" false).result =
        Except.error
          (generateError "You must leave all servers before deleting your account.")
      ∧ (deleteAccount dbDel "TAG" "u1" false).db = dbDel
      ∧ (deleteAccount dbDel "TAG" "u1" false).effects = [])
    ∧ (deleteAccount dbDel "TAG" "u1" true).result = Except.ok true
    ∧ (∀ a ∈ (deleteAccount dbDel "TAG" "u1" true).db.accounts, a.userId ≠ "u1") :=
  ⟨rfl, by decide,
   (deleteAccount_spec dbDel "TAG" "u1" userU1 rfl).1 (by decide),
   ((deleteAccount_spec dbDel "TAG" "u1" userU1 rfl).2.2 true (Or.inl rfl)).1,
   ((deleteAccount_spec dbDel "TAG" "u1" userU1 rfl).2.2 true (Or.inl rfl)).2.2.2.1⟩

end AdsChat
